import Mathlib

/-!
Verification development for the Voight-Kampff credential-verification
gateway (src/voight-kampff/app/main.py).

Python strings are sequences of code points; they are modelled as Lean
`String` (logically a `List Char`), and the Python string operations used
by the source (`split`, `join`, `strip`, `replace`, `startswith`, the
`in` substring test) are given explicit character-level definitions below,
each mirroring the CPython semantics of the call as it appears in the
source. Timestamps (`datetime.utcnow()` values) are modelled as `Int`
seconds; `timedelta(days=d)` is `d * 86400` seconds. Python truthiness of
optional strings and integers (empty string, `None` and `0` are falsy) is
modelled explicitly where the source relies on it.
-/

/-- Decidable equality for `Except`, used to evaluate the key-creation
endpoint on concrete inputs. -/
instance instDecEqExcept {ε α : Type} [DecidableEq ε] [DecidableEq α] :
    DecidableEq (Except ε α) := fun a b =>
  match a, b with
  | .error x, .error y => decidable_of_iff (x = y) (by simp)
  | .error _, .ok _ => .isFalse (by simp)
  | .ok _, .error _ => .isFalse (by simp)
  | .ok x, .ok y => decidable_of_iff (x = y) (by simp)

namespace VK

/-- Python whitespace characters relevant to `str.strip()` on the ASCII
range (space, tab, newline, carriage return, vertical tab, form feed). -/
def isPyWs (c : Char) : Bool :=
  c == ' ' || c == '\t' || c == '\n' || c == '\r' || c == '\x0b' || c == '\x0c'

/-- Strip leading and trailing whitespace from a character list. -/
def stripList (cs : List Char) : List Char :=
  ((cs.dropWhile isPyWs).reverse.dropWhile isPyWs).reverse

/-- Model of Python `s.strip()`. -/
def pyStrip (s : String) : String := String.mk (stripList s.data)

/-- Split a character list on a separator character; models Python
`s.split(sep)` for a single-character separator (in particular
`''.split(sep) == ['']`). -/
def splitChar (sep : Char) : List Char → List (List Char)
  | [] => [[]]
  | c :: cs =>
    if c == sep then [] :: splitChar sep cs
    else
      match splitChar sep cs with
      | [] => [[c]]
      | g :: gs => (c :: g) :: gs

/-- Model of Python `s.split(sep)` for a one-character separator. -/
def pySplit (s : String) (sep : Char) : List String :=
  (splitChar sep s.data).map fun l => String.mk l

/-- Join character lists with a separator character; models Python
`sep.join(xs)` for a single-character separator. -/
def joinChar (sep : Char) : List (List Char) → List Char
  | [] => []
  | [g] => g
  | g :: g2 :: gs => g ++ sep :: joinChar sep (g2 :: gs)

/-- Model of Python `','.join(xs)`. -/
def pyJoinComma (xs : List String) : String :=
  String.mk (joinChar ',' (xs.map (·.data)))

/-- `startsList p cs` is true when `p` is an initial segment of `cs`;
models Python `cs.startswith(p)`. -/
def startsList : List Char → List Char → Bool
  | [], _ => true
  | _ :: _, [] => false
  | p :: ps, c :: cs => p == c && startsList ps cs

/-- Model of Python `s.startswith(p)`. -/
def pyStartsWith (s p : String) : Bool := startsList p.data s.data

/-- `containsList cs sub` is true when `sub` occurs as a contiguous
substring of `cs`; models the Python `sub in cs` test. -/
def containsList (cs sub : List Char) : Bool :=
  startsList sub cs ||
    match cs with
    | [] => false
    | _ :: rest => containsList rest sub

/-- Model of the Python substring test `sub in s`. -/
def pyContains (s sub : String) : Bool := containsList s.data sub.data

/-- Fuel-indexed worker for `replaceList`; each step consumes at least one
character of the subject, so fuel equal to the subject length suffices. -/
def replaceListAux (p rep : List Char) : Nat → List Char → List Char
  | _, [] => []
  | 0, cs => cs
  | fuel + 1, c :: cs =>
    if startsList p (c :: cs) && !p.isEmpty then
      rep ++ replaceListAux p rep fuel (cs.drop (p.length - 1))
    else c :: replaceListAux p rep fuel cs

/-- Replace every non-overlapping occurrence of `p` in the subject by
`rep`, scanning left to right; models Python `s.replace(p, rep)` for a
non-empty pattern. -/
def replaceList (p rep cs : List Char) : List Char :=
  replaceListAux p rep cs.length cs

/-- Model of Python `s.replace(p, rep)` for a non-empty pattern `p`. -/
def pyReplace (s p rep : String) : String :=
  String.mk (replaceList p.data rep.data s.data)

/-- Python truthiness of a string: the empty string is falsy. -/
def truthyStr (s : String) : Bool := !(s == "")

/-- Python truthiness of an `Optional[str]`: `None` and `""` are falsy. -/
def truthyOpt : Option String → Bool
  | none => false
  | some s => truthyStr s

/-- Rendering of an `Optional[str]` inside a Python f-string: `None`
renders as the literal text `None`. -/
def pyOptStr : Option String → String
  | none => "None"
  | some s => s

/-- Upper-case hexadecimal digit character, as produced by
`urllib.parse.quote`. -/
def hexUpper (n : Nat) : Char :=
  if n < 10 then Char.ofNat (48 + n) else Char.ofNat (55 + n)

/-- Bytes left unescaped by `urllib.parse.quote` with the default
`safe='/'`: ASCII letters, digits, `_ . - ~` and `/`. -/
def isQuoteSafe (b : UInt8) : Bool :=
  (65 ≤ b && b ≤ 90) || (97 ≤ b && b ≤ 122) || (48 ≤ b && b ≤ 57) ||
    b == 95 || b == 46 || b == 45 || b == 126 || b == 47

/-- Percent-encode a list of UTF-8 bytes as `urllib.parse.quote` does. -/
def quoteBytes : List UInt8 → List Char
  | [] => []
  | b :: bs =>
    (if isQuoteSafe b then [Char.ofNat b.toNat]
     else ['%', hexUpper (b.toNat / 16), hexUpper (b.toNat % 16)]) ++ quoteBytes bs

/-- Model of Python `urllib.parse.quote(s)` (default `safe='/'`): the
string is UTF-8 encoded and each unsafe byte is percent-escaped. -/
def pyQuote (s : String) : String :=
  String.mk (quoteBytes (s.data.flatMap String.utf8EncodeChar))

/-- The `api_keys` table row (class `APIKey` in main.py). `scopes` is the
stored comma-separated string, exactly as in the source. -/
structure APIKey where
  id : Nat
  key_name : String
  api_key : String
  user_id : Nat
  user : String
  scopes : String
  is_active : Bool
  created_at : Int
  last_used : Option Int
  expires_at : Option Int
deriving DecidableEq

/-- The `users` table row (class `User` in main.py), restricted to the
fields the verification endpoint reads. -/
structure User where
  id : Nat
  username : String
  is_active : Bool
deriving DecidableEq

/-- The outcome emitted by the `/verify` endpoint: a 200 JSON response
with the `X-VK-User`, `X-VK-Service` and `X-VK-Scopes` headers, a 401 or
403 `HTTPException` with its detail text, or a 302 redirect. -/
inductive VerifyDecision where
  | allow (user service scopes_header : String)
  | unauthorized (detail : String)
  | forbidden (detail : String)
  | redirect (url : String)
deriving DecidableEq

/-- HTTP status code carried by each decision. -/
def VerifyDecision.statusCode : VerifyDecision → Nat
  | .allow _ _ _ => 200
  | .unauthorized _ => 401
  | .forbidden _ => 403
  | .redirect _ => 302

/-- `allowed_scopes = [s.strip() for s in db_key.scopes.split(',')]`
(main.py line 628, also lines 569 and 723). -/
def allowedScopes (k : APIKey) : List String :=
  (pySplit k.scopes ',').map pyStrip

/-- The scope test of main.py lines 629 and 570: the target service is in
the allowed scopes, or the wildcard is. -/
def scopeOk (k : APIKey) (service : String) : Bool :=
  (allowedScopes k).contains service || (allowedScopes k).contains "*"

/-- The expiration test of main.py line 621:
`db_key.expires_at and db_key.expires_at < datetime.utcnow()` (a
`datetime` object is always truthy, so the first conjunct is presence). -/
def isExpired (k : APIKey) (now : Int) : Bool :=
  match k.expires_at with
  | some e => decide (e < now)
  | none => false

/-- The last-used bookkeeping write of main.py line 636: the row whose
`api_key` column equals the presented value gets `last_used = utcnow()`;
every other row, and every other column, is untouched. -/
def updateLastUsed (store : List APIKey) (v : String) (now : Int) : List APIKey :=
  store.map fun k => if k.api_key == v then { k with last_used := some now } else k

/-- The Verification Engine: main.py lines 601-651. `store` models the
`api_keys` table (row lookup by the unique `api_key` column models
`scalar_one_or_none`), `v` the resolved candidate value, `user_name`
the name carried from a session resolution (`"unknown"` otherwise), and
`now` the current time. Returns the decision and the table afterwards. -/
def verifyKey (store : List APIKey) (v service user_name : String) (now : Int) :
    VerifyDecision × List APIKey :=
  match store.find? (fun k => k.api_key == v) with
  | none => (.unauthorized "Invalid API key", store)
  | some db_key =>
    if !db_key.is_active then
      (.forbidden "API key is disabled", store)
    else if isExpired db_key now then
      (.forbidden "API key has expired", store)
    else if !scopeOk db_key service then
      (.forbidden ("Access denied: API key does not have permission for service \x27"
          ++ service ++ "\x27"), store)
    else
      let final_user := if user_name != "unknown" then user_name else db_key.user
      (.allow final_user service db_key.scopes, updateLastUsed store v now)

/-- Descending insertion by `created_at`, used to model the
`order_by(APIKey.created_at.desc())` of the session-cookie key query. -/
def insertDesc (k : APIKey) : List APIKey → List APIKey
  | [] => [k]
  | x :: xs => if x.created_at ≤ k.created_at then k :: x :: xs else x :: insertDesc k xs

/-- Sort a key list newest-created-first. -/
def sortByCreatedDesc : List APIKey → List APIKey
  | [] => []
  | x :: xs => insertDesc x (sortByCreatedDesc xs)

/-- The session-cookie key selection of main.py lines 558-572: the active
keys of the user, newest first, scanned for the first whose scopes contain
the service or the wildcard. Expiration is not consulted. -/
def sessionSelectKey (keys : List APIKey) (uid : Nat) (service : String) :
    Option APIKey :=
  let user_keys := sortByCreatedDesc (keys.filter fun k => k.user_id == uid && k.is_active)
  user_keys.find? fun k => scopeOk k service

/-- The inputs of the `/verify` endpoint: forwarded headers, credential
carriers, the `vk_session` cookie, and the two browser-heuristic headers
(absent headers read as `""` via `request.headers.get(..., "")`). -/
structure Request where
  x_forwarded_uri : Option String
  x_forwarded_host : Option String
  authorization : Option String
  x_api_key : Option String
  vk_session : Option String
  accept : String
  user_agent : String
deriving DecidableEq

/-- Target-service determination, main.py lines 531-533:
`service = x_forwarded_host.split('.')[0]` when the host header is truthy,
otherwise the literal `"unknown"`. -/
def serviceOf (r : Request) : String :=
  match r.x_forwarded_host with
  | some h => if truthyStr h then String.mk ((splitChar '.' h.data).headD []) else "unknown"
  | none => "unknown"

/-- Result of the Credential Resolver: the candidate value (if any) and
the `user_name` variable (initialised `"unknown"`, overwritten only by a
successful session-cookie user lookup). -/
structure Resolved where
  api_key : Option String
  user_name : String
deriving DecidableEq

/-- The Credential Resolver, main.py lines 527-572: Bearer header first
(`authorization.replace("Bearer ", "").strip()`), then the X-API-Key
header, then the session cookie (deserialised by `deser`, modelling
`deserialize_session`; a `user_id` of 0 is falsy in Python and rejected,
as is a missing or empty cookie). -/
def resolveCandidate (users : List User) (keys : List APIKey)
    (deser : String → Option Nat) (r : Request) (service : String) : Resolved :=
  if truthyOpt r.authorization && pyStartsWith (r.authorization.getD "") "Bearer " then
    { api_key := some (pyStrip (pyReplace (r.authorization.getD "") "Bearer " "")),
      user_name := "unknown" }
  else if truthyOpt r.x_api_key then
    { api_key := some (pyStrip (r.x_api_key.getD "")), user_name := "unknown" }
  else if truthyOpt r.vk_session then
    match deser (r.vk_session.getD "") with
    | some uid =>
      if uid != 0 then
        match users.find? (fun u => u.id == uid && u.is_active) with
        | some u =>
          match sessionSelectKey keys uid service with
          | some k => { api_key := some k.api_key, user_name := u.username }
          | none => { api_key := none, user_name := u.username }
        | none => { api_key := none, user_name := "unknown" }
      else { api_key := none, user_name := "unknown" }
    | none => { api_key := none, user_name := "unknown" }
  else { api_key := none, user_name := "unknown" }

/-- The redirect URL built for browser callers, main.py lines 587-591:
the login entry point, plus the percent-encoded original destination when
`x_forwarded_uri` is truthy (a missing host renders as the f-string text
`None`). -/
def loginRedirectUrl (r : Request) : String :=
  if truthyOpt r.x_forwarded_uri then
    "https://auth.caronboulme.fr/auth/login?redirect="
      ++ pyQuote ("https://" ++ pyOptStr r.x_forwarded_host ++ r.x_forwarded_uri.getD "")
  else "https://auth.caronboulme.fr/auth/login"

/-- The no-credential fallback, main.py lines 574-599: browser requests
(`"text/html" in accept or "Mozilla" in user_agent`) get a 302 redirect to
the login page, others a 401. -/
def browserFallback (r : Request) : VerifyDecision :=
  if pyContains r.accept "text/html" || pyContains r.user_agent "Mozilla" then
    .redirect (loginRedirectUrl r)
  else .unauthorized "Missing or invalid authentication"

/-- The full `/verify` endpoint, main.py lines 513-651: resolve the target
service and candidate credential, fall back to the browser heuristic when
the candidate is `None` or empty (`if not api_key`), otherwise run the
Verification Engine. Returns the decision and the `api_keys` table
afterwards. -/
def verify_api_key (users : List User) (keys : List APIKey)
    (deser : String → Option Nat) (r : Request) (now : Int) :
    VerifyDecision × List APIKey :=
  let service := serviceOf r
  let res := resolveCandidate users keys deser r service
  match res.api_key with
  | some v =>
    if v == "" then (browserFallback r, keys)
    else verifyKey keys v service res.user_name now
  | none => (browserFallback r, keys)

/-- The `POST /keys` request body (`APIKeyCreate` in main.py). -/
structure APIKeyCreate where
  key_name : String
  user : String
  scopes : List String
  expires_in_days : Option Int
deriving DecidableEq

/-- The `POST /keys` response body (`APIKeyResponse` in main.py); the only
place the plaintext secret is echoed. -/
structure APIKeyResponse where
  id : Nat
  key_name : String
  api_key : String
  user : String
  scopes : List String
  is_active : Bool
  created_at : Int
  last_used : Option Int
  expires_at : Option Int
deriving DecidableEq

/-- The expiration computation of main.py lines 678-680:
`if key_data.expires_in_days:` is a Python truthiness test, so `None` and
`0` both yield no stored expiration; otherwise
`expires_at = utcnow() + timedelta(days=d)`. -/
def expiresOf (key_data : APIKeyCreate) (now : Int) : Option Int :=
  match key_data.expires_in_days with
  | some d => if d != 0 then some (now + d * 86400) else none
  | none => none

/-- The key-creation endpoint, main.py lines 655-706. `new_api_key` models
the generated `secrets.token_urlsafe(48)` value and `new_id` the
autoincremented row id. A duplicate `key_name` is the 400 error branch. -/
def create_api_key (store : List APIKey) (key_data : APIKeyCreate)
    (new_api_key : String) (new_id : Nat) (now : Int) :
    Except String (APIKeyResponse × List APIKey) :=
  match store.find? (fun k => k.key_name == key_data.key_name) with
  | some _ => .error "An API key with this name already exists"
  | none =>
    let expires_at : Option Int := expiresOf key_data now
    let db_key : APIKey :=
      { id := new_id, key_name := key_data.key_name, api_key := new_api_key,
        user_id := 0, user := key_data.user, scopes := pyJoinComma key_data.scopes,
        is_active := true, created_at := now, last_used := none,
        expires_at := expires_at }
    .ok ({ id := db_key.id, key_name := db_key.key_name, api_key := db_key.api_key,
           user := db_key.user, scopes := key_data.scopes,
           is_active := db_key.is_active, created_at := db_key.created_at,
           last_used := db_key.last_used, expires_at := db_key.expires_at },
         store ++ [db_key])

/-- One entry of the `GET /keys` response (`APIKeyList` in main.py): the
row without its `api_key` column, scopes re-split from the stored
comma-separated string. -/
structure APIKeyListEntry where
  id : Nat
  key_name : String
  user : String
  scopes : List String
  is_active : Bool
  created_at : Int
  last_used : Option Int
  expires_at : Option Int
deriving DecidableEq

/-- The key-listing endpoint, main.py lines 708-730. -/
def list_api_keys (store : List APIKey) : List APIKeyListEntry :=
  store.map fun k =>
    { id := k.id, key_name := k.key_name, user := k.user,
      scopes := (pySplit k.scopes ',').map pyStrip,
      is_active := k.is_active, created_at := k.created_at,
      last_used := k.last_used, expires_at := k.expires_at }

/-- The strings in which a plaintext secret could textually surface inside
one `GET /keys` response entry. -/
def APIKeyListEntry.strings (e : APIKeyListEntry) : List String :=
  e.key_name :: e.user :: e.scopes

/-! ### Helper lemmas about the string-operation models -/

lemma data_append (s t : String) : (s ++ t).data = s.data ++ t.data := by
  obtain ⟨a⟩ := s
  obtain ⟨b⟩ := t
  rfl

lemma startsList_append (p r : List Char) : startsList p (p ++ r) = true := by
  induction p with
  | nil => rfl
  | cons c cs ih => simp [startsList, ih]

lemma startsList_ne_nil {p cs : List Char} (hp : p ≠ []) (h : startsList p cs = true) :
    cs ≠ [] := by
  cases p with
  | nil => exact absurd rfl hp
  | cons c ps =>
    cases cs with
    | nil => simp [startsList] at h
    | cons d ds => exact List.cons_ne_nil d ds

lemma splitChar_not_mem {g : List Char} (sep : Char) (h : sep ∉ g) :
    splitChar sep g = [g] := by
  induction g with
  | nil => rfl
  | cons c cs ih =>
    simp only [List.mem_cons, not_or] at h
    have hc : (c == sep) = false := by
      simp [beq_eq_false_iff_ne, Ne.symm h.1]
    simp [splitChar, hc, ih h.2]

lemma splitChar_append {g : List Char} (rest : List Char) (h : ',' ∉ g) :
    splitChar ',' (g ++ ',' :: rest) = g :: splitChar ',' rest := by
  induction g with
  | nil => simp [splitChar]
  | cons c cs ih =>
    simp only [List.mem_cons, not_or] at h
    have hc : (c == ',') = false := by
      simp [beq_eq_false_iff_ne, Ne.symm h.1]
    simp [splitChar, hc, ih h.2]

lemma splitChar_joinChar {gs : List (List Char)} (hne : gs ≠ [])
    (h : ∀ g ∈ gs, ',' ∉ g) : splitChar ',' (joinChar ',' gs) = gs := by
  induction gs with
  | nil => exact absurd rfl hne
  | cons g gs ih =>
    cases gs with
    | nil => exact splitChar_not_mem ',' (h g (List.mem_cons_self g []))
    | cons g2 gs2 =>
      have hj : joinChar ',' (g :: g2 :: gs2) = g ++ ',' :: joinChar ',' (g2 :: gs2) := rfl
      rw [hj, splitChar_append _ (h g (List.mem_cons_self g _)),
        ih (List.cons_ne_nil g2 gs2) (fun x hx => h x (List.mem_cons_of_mem g hx))]

lemma map_mk_data (xs : List String) :
    (xs.map (·.data)).map (fun l => String.mk l) = xs := by
  induction xs with
  | nil => rfl
  | cons x xs ih =>
    simp only [List.map_cons]
    rw [ih]

lemma map_pyStrip_self {xs : List String} (h : ∀ s ∈ xs, pyStrip s = s) :
    xs.map pyStrip = xs := by
  induction xs with
  | nil => rfl
  | cons x xs ih =>
    simp only [List.map_cons]
    rw [h x (List.mem_cons_self x xs), ih (fun s hs => h s (List.mem_cons_of_mem x hs))]

/-- The stored comma-joined scope string splits back into the issued scope
list, provided the list is non-empty and its elements contain no comma and
survive whitespace stripping. -/
lemma scopes_roundtrip {xs : List String} (hne : xs ≠ [])
    (hc : ∀ s ∈ xs, ',' ∉ s.data) (hs : ∀ s ∈ xs, pyStrip s = s) :
    (pySplit (pyJoinComma xs) ',').map pyStrip = xs := by
  unfold pySplit pyJoinComma
  have hd : (String.mk (joinChar ',' (xs.map (·.data)))).data
      = joinChar ',' (xs.map (·.data)) := rfl
  rw [hd, splitChar_joinChar ?hne ?hmem, map_mk_data, map_pyStrip_self hs]
  case hne =>
    intro hcon
    exact hne (List.map_eq_nil_iff.mp hcon)
  case hmem =>
    intro g hg
    obtain ⟨s, hsmem, rfl⟩ := List.mem_map.mp hg
    exact hc s hsmem

lemma containsList_cons_false {c : Char} {cs p : List Char}
    (h : containsList (c :: cs) p = false) :
    startsList p (c :: cs) = false ∧ containsList cs p = false := by
  have he : containsList (c :: cs) p = (startsList p (c :: cs) || containsList cs p) := rfl
  rw [he] at h
  exact ⟨by cases hb : startsList p (c :: cs) <;> simp [hb] at h ⊢,
         by cases hb : containsList cs p <;> simp [hb] at h ⊢⟩

lemma replaceListAux_no_occ (p rep : List Char) (fuel : Nat) {cs : List Char}
    (h : containsList cs p = false) : replaceListAux p rep fuel cs = cs := by
  induction fuel generalizing cs with
  | zero => cases cs <;> rfl
  | succ n ih =>
    cases cs with
    | nil => rfl
    | cons c cs =>
      obtain ⟨h1, h2⟩ := containsList_cons_false h
      simp [replaceListAux, h1, ih h2]

/-- Removing every occurrence of a pattern from a string that starts with
the pattern and contains no further occurrence yields the remainder. -/
lemma replaceList_leading_occurrence {p rest : List Char} (hp : p ≠ [])
    (h : containsList rest p = false) :
    replaceList p [] (p ++ rest) = rest := by
  cases p with
  | nil => exact absurd rfl hp
  | cons c ps =>
    have hstart : startsList (c :: ps) (c :: (ps ++ rest)) = true :=
      startsList_append (c :: ps) rest
    have hgoal : replaceList (c :: ps) [] ((c :: ps) ++ rest)
        = replaceListAux (c :: ps) [] ((ps ++ rest).length + 1) (c :: (ps ++ rest)) := rfl
    rw [hgoal]
    simp only [replaceListAux, hstart, List.isEmpty_cons, Bool.not_false, Bool.and_true,
      if_pos rfl, List.nil_append]
    have hdrop : (ps ++ rest).drop ((c :: ps).length - 1) = rest := by
      have : (c :: ps).length - 1 = ps.length := by simp
      rw [this]
      exact List.drop_left ps rest
    rw [hdrop]
    exact replaceListAux_no_occ _ _ _ h

/-- Python `("Bearer " + rest).replace("Bearer ", "")` returns `rest` when
`rest` contains no further occurrence of the pattern. -/
lemma pyReplace_bearer_no_occ {rest : String}
    (h : containsList rest.data ("Bearer ".data) = false) :
    pyReplace ("Bearer " ++ rest) "Bearer " "" = rest := by
  obtain ⟨a⟩ := rest
  unfold pyReplace
  have hd : (("Bearer " : String) ++ String.mk a).data = "Bearer ".data ++ a :=
    data_append "Bearer " (String.mk a)
  rw [hd, replaceList_leading_occurrence (by decide) h]

/-! ### Claim theorems -/

/-- C1: a stored credential that is found by its secret value, is active,
whose expiration is absent or not in the past, and whose scope set
contains the target service or the wildcard, is ALLOWed with status 200
and the principal, service and scopes payload; its last-used timestamp is
set to the current time (which is at least the previous value, given a
non-decreasing clock), and no other field of any stored credential
changes. -/
theorem C1_active_unexpired_scoped_allows (store : List APIKey)
    (v service user_name : String) (now : Int) (k : APIKey)
    (hfind : store.find? (fun x => x.api_key == v) = some k)
    (hact : k.is_active = true)
    (hexp : isExpired k now = false)
    (hscope : scopeOk k service = true)
    (hmono : ∀ t, k.last_used = some t → t ≤ now) :
    (verifyKey store v service user_name now).1 =
      .allow (if user_name != "unknown" then user_name else k.user) service k.scopes ∧
    ((verifyKey store v service user_name now).1).statusCode = 200 ∧
    (verifyKey store v service user_name now).2 =
      store.map (fun x => if x.api_key == v then { x with last_used := some now } else x) ∧
    ∀ t, k.last_used = some t →
      ({ k with last_used := some now } : APIKey).last_used = some now ∧ t ≤ now := by
  have hmain : verifyKey store v service user_name now =
      (.allow (if user_name != "unknown" then user_name else k.user) service k.scopes,
        updateLastUsed store v now) := by
    unfold verifyKey
    rw [hfind]
    simp [hact, hexp, hscope]
  refine ⟨by rw [hmain], by rw [hmain]; rfl, by rw [hmain]; rfl,
    fun t ht => ⟨rfl, hmono t ht⟩⟩

def kC1 : APIKey :=
  { id := 1, key_name := "main", api_key := "s1", user_id := 0, user := "alice",
    scopes := "tts,stt", is_active := true, created_at := 0,
    last_used := some 5, expires_at := some 100 }

/-- C1 witness: a concrete active credential with scopes `tts,stt`, a
future expiration and a previous last-used of 5, verified for service
`tts` at time 10. -/
theorem C1_witness :
    (verifyKey [kC1] "s1" "tts" "unknown" 10).1 = .allow "alice" "tts" "tts,stt" ∧
    (verifyKey [kC1] "s1" "tts" "unknown" 10).2 = [{ kC1 with last_used := some 10 }] := by
  have h := C1_active_unexpired_scoped_allows [kC1] "s1" "tts" "unknown" 10 kC1
    (by decide) (by decide) (by decide) (by decide)
    (by intro t ht; simp [kC1] at ht; omega)
  exact ⟨h.1.trans (by decide), (h.2.2.1).trans (by decide)⟩

/-- C2: a stored credential with `is_active = false` is denied with the
403 `API key is disabled` error, whatever the target service, the scope
string and the expiration timestamp are. -/
theorem C2_disabled_denied (store : List APIKey) (v service user_name : String)
    (now : Int) (k : APIKey)
    (hfind : store.find? (fun x => x.api_key == v) = some k)
    (hact : k.is_active = false) :
    verifyKey store v service user_name now = (.forbidden "API key is disabled", store) ∧
    ((verifyKey store v service user_name now).1).statusCode = 403 := by
  have hmain : verifyKey store v service user_name now =
      (.forbidden "API key is disabled", store) := by
    unfold verifyKey
    rw [hfind]
    simp [hact]
  exact ⟨hmain, by rw [hmain]; rfl⟩

def kC2 : APIKey :=
  { id := 2, key_name := "off", api_key := "s2", user_id := 0, user := "bob",
    scopes := "*", is_active := false, created_at := 0,
    last_used := none, expires_at := some (-5) }

/-- C2 witness: a concrete disabled credential with wildcard scope and an
expiration already in the past is still denied as disabled. -/
theorem C2_witness :
    verifyKey [kC2] "s2" "llm" "unknown" 10 = (.forbidden "API key is disabled", [kC2]) := by
  exact (C2_disabled_denied [kC2] "s2" "llm" "unknown" 10 kC2 (by decide) (by decide)).1

def kC3 : APIKey :=
  { id := 3, key_name := "both", api_key := "s3", user_id := 0, user := "carol",
    scopes := "tts", is_active := false, created_at := 0,
    last_used := none, expires_at := some 0 }

/-- C3 counterexample: a credential that is both disabled and expired
(expiration 0, checked at time 10) is denied as `disabled`, not as
`expired` — the active check of main.py line 614 runs before the
expiration check of line 621, so the claimed behaviour for
`active = false` credentials does not hold. -/
theorem C3_counterexample :
    kC3.expires_at = some 0 ∧ (0 : Int) < 10 ∧ kC3.is_active = false ∧
    (verifyKey [kC3] "s3" "tts" "unknown" 10).1 = .forbidden "API key is disabled" ∧
    (verifyKey [kC3] "s3" "tts" "unknown" 10).1 ≠ .forbidden "API key has expired" := by
  decide

/-- C3 (amended): a stored credential that is active and whose expiration
timestamp is set and strictly in the past is denied with the 403
`API key has expired` error, whatever the scope set. -/
theorem C3_expired_denied (store : List APIKey) (v service user_name : String)
    (now : Int) (k : APIKey) (e : Int)
    (hfind : store.find? (fun x => x.api_key == v) = some k)
    (hact : k.is_active = true)
    (hexp : k.expires_at = some e) (hlt : e < now) :
    verifyKey store v service user_name now = (.forbidden "API key has expired", store) ∧
    ((verifyKey store v service user_name now).1).statusCode = 403 := by
  have hexpired : isExpired k now = true := by
    unfold isExpired
    rw [hexp]
    simpa using hlt
  have hmain : verifyKey store v service user_name now =
      (.forbidden "API key has expired", store) := by
    unfold verifyKey
    rw [hfind]
    simp [hact, hexpired]
  exact ⟨hmain, by rw [hmain]; rfl⟩

def kC3w : APIKey :=
  { id := 4, key_name := "stale", api_key := "s4", user_id := 0, user := "dave",
    scopes := "*", is_active := true, created_at := 0,
    last_used := none, expires_at := some 7 }

/-- C3 witness: a concrete active credential whose expiration 7 lies
strictly before the verification time 10 is denied as expired. -/
theorem C3_witness :
    verifyKey [kC3w] "s4" "tts" "unknown" 10 = (.forbidden "API key has expired", [kC3w]) := by
  exact (C3_expired_denied [kC3w] "s4" "tts" "unknown" 10 kC3w 7
    (by decide) (by decide) (by decide) (by decide)).1

/-- When an authorization header value begins with the Bearer marker, the
resolver takes Method 1: the candidate is the header value with all
`Bearer ` occurrences removed and then stripped, `user_name` stays
`unknown`, and neither the X-API-Key header nor the session cookie are
consulted. -/
lemma resolveCandidate_bearer (users : List User) (keys : List APIKey)
    (deser : String → Option Nat) (r : Request) (service : String) (a : String)
    (hauth : r.authorization = some a) (hb : pyStartsWith a "Bearer " = true) :
    resolveCandidate users keys deser r service =
      { api_key := some (pyStrip (pyReplace a "Bearer " "")), user_name := "unknown" } := by
  have hne : a ≠ "" := by
    intro hemp
    rw [hemp] at hb
    exact absurd hb (by decide)
  unfold resolveCandidate
  simp [hauth, truthyOpt, truthyStr, hb, hne]

/-- C4: when the request carries both an authorization header beginning
with `Bearer ` and a session cookie, the resolved candidate is the
Bearer-derived value with `user_name` untouched, and the whole endpoint
behaves exactly as it would with the cookie absent: the cookie is never
consulted and no cookie-derived credential is ever the one checked. -/
theorem C4_bearer_precedence (users : List User) (keys : List APIKey)
    (deser : String → Option Nat) (r : Request) (now : Int) (a c : String)
    (hauth : r.authorization = some a)
    (hb : pyStartsWith a "Bearer " = true)
    (_hck : r.vk_session = some c) :
    (∀ service, resolveCandidate users keys deser r service =
      { api_key := some (pyStrip (pyReplace a "Bearer " "")), user_name := "unknown" }) ∧
    verify_api_key users keys deser r now =
      verify_api_key users keys deser { r with vk_session := none } now := by
  refine ⟨fun service => resolveCandidate_bearer users keys deser r service a hauth hb, ?_⟩
  unfold verify_api_key
  simp only [resolveCandidate_bearer users keys deser r _ a hauth hb,
    resolveCandidate_bearer users keys deser { r with vk_session := none } _ a hauth hb]
  rfl

def rC4 : Request :=
  { x_forwarded_uri := none, x_forwarded_host := some "tts.example.com",
    authorization := some "Bearer s1", x_api_key := none,
    vk_session := some "cookie-value", accept := "text/html", user_agent := "Mozilla/5.0" }

/-- C4 witness: a concrete request carrying both a Bearer header and a
session cookie resolves to the Bearer token `s1`. -/
theorem C4_witness :
    resolveCandidate [] [] (fun _ => some 1) rC4 "tts" =
      { api_key := some "s1", user_name := "unknown" } ∧
    verify_api_key [] [] (fun _ => some 1) rC4 0 =
      verify_api_key [] [] (fun _ => some 1) { rC4 with vk_session := none } 0 := by
  have h := C4_bearer_precedence [] [] (fun _ => some 1) rC4 0 "Bearer s1" "cookie-value"
    (by decide) (by decide) (by decide)
  exact ⟨(h.1 "tts").trans (by decide), h.2⟩

def rC5 : Request :=
  { x_forwarded_uri := none, x_forwarded_host := none,
    authorization := some "Bearer xBearer y", x_api_key := none, vk_session := none,
    accept := "", user_agent := "" }

/-- C5 counterexample: for the header value `Bearer xBearer y` the
remainder after the prefix is `xBearer y` (stripped: itself), but the
resolver produces `xy` — `authorization.replace("Bearer ", "")` on
main.py line 537 removes every occurrence of the pattern, not just the
leading one, so the claim fails on remainders containing `Bearer `. -/
theorem C5_counterexample :
    pyStartsWith "Bearer xBearer y" "Bearer " = true ∧
    (resolveCandidate [] [] (fun _ => none) rC5 "unknown").api_key = some "xy" ∧
    some "xy" ≠ some (pyStrip "xBearer y") := by
  decide

/-- C5 (amended): for an authorization header beginning with `Bearer `,
the candidate is the header value with every occurrence of `Bearer `
removed and the result stripped of surrounding whitespace; when the
remainder after the prefix contains no further occurrence of `Bearer `,
this equals the stripped remainder. -/
theorem C5_bearer_extraction (users : List User) (keys : List APIKey)
    (deser : String → Option Nat) (r : Request) (service : String) (rest : String)
    (hauth : r.authorization = some ("Bearer " ++ rest))
    (hno : containsList rest.data ("Bearer ".data) = false) :
    (resolveCandidate users keys deser r service).api_key =
      some (pyStrip (pyReplace ("Bearer " ++ rest) "Bearer " "")) ∧
    (resolveCandidate users keys deser r service).api_key = some (pyStrip rest) := by
  have hb : pyStartsWith ("Bearer " ++ rest) "Bearer " = true := by
    unfold pyStartsWith
    rw [data_append]
    exact startsList_append _ _
  have h1 := resolveCandidate_bearer users keys deser r service _ hauth hb
  exact ⟨by rw [h1], by rw [h1, pyReplace_bearer_no_occ hno]⟩

def rC5w : Request :=
  { x_forwarded_uri := none, x_forwarded_host := none,
    authorization := some "Bearer  tok-9  ", x_api_key := none, vk_session := none,
    accept := "", user_agent := "" }

/-- C5 witness: the concrete header `Bearer  tok-9  ` (whose remainder
` tok-9  ` contains no further `Bearer `) resolves to the stripped
remainder `tok-9`. -/
theorem C5_witness :
    (resolveCandidate [] [] (fun _ => none) rC5w "tts").api_key = some "tok-9" := by
  have h := C5_bearer_extraction [] [] (fun _ => none) rC5w "tts" " tok-9  "
    (by decide) (by decide)
  exact h.2.trans (by decide)

def rC6 : Request :=
  { x_forwarded_uri := none, x_forwarded_host := none,
    authorization := none, x_api_key := none, vk_session := none,
    accept := "application/json", user_agent := "Mozilla/5.0" }

/-- C6 counterexample: a request with no credential carrier whose Accept
header does not contain `text/html` is nevertheless answered with a 302
redirect, not a 401, because its User-Agent contains `Mozilla` — the
browser heuristic of main.py lines 580-583 also consults the User-Agent
header, so the claimed behaviour does not hold for every User-Agent. -/
theorem C6_counterexample :
    pyContains rC6.accept "text/html" = false ∧
    (verify_api_key [] [] (fun _ => none) rC6 0).1 =
      .redirect "https://auth.caronboulme.fr/auth/login" ∧
    ((verify_api_key [] [] (fun _ => none) rC6 0).1).statusCode = 302 ∧
    ((verify_api_key [] [] (fun _ => none) rC6 0).1).statusCode ≠ 401 := by
  decide

/-- C6 (amended): for a request with no credential in any carrier, the
response is a 302 redirect to the login entry point (carrying the
percent-encoded original destination when a forwarded URI is present)
exactly when the Accept header contains `text/html` or the User-Agent
header contains `Mozilla`; when neither holds, the response is a 401 with
the unauthenticated detail. -/
theorem C6_no_credential_fallback (users : List User) (keys : List APIKey)
    (deser : String → Option Nat) (r : Request) (now : Int)
    (hauth : r.authorization = none) (hx : r.x_api_key = none)
    (hck : r.vk_session = none) :
    verify_api_key users keys deser r now =
      ((if pyContains r.accept "text/html" || pyContains r.user_agent "Mozilla" then
          .redirect (loginRedirectUrl r)
        else .unauthorized "Missing or invalid authentication"), keys) ∧
    (pyContains r.accept "text/html" = true →
      (verify_api_key users keys deser r now).1 = .redirect (loginRedirectUrl r)) ∧
    (pyContains r.accept "text/html" = false → pyContains r.user_agent "Mozilla" = false →
      verify_api_key users keys deser r now =
        (.unauthorized "Missing or invalid authentication", keys) ∧
      ((verify_api_key users keys deser r now).1).statusCode = 401) := by
  have hres : resolveCandidate users keys deser r (serviceOf r) =
      { api_key := none, user_name := "unknown" } := by
    unfold resolveCandidate
    simp [hauth, hx, hck, truthyOpt]
  have hmain : verify_api_key users keys deser r now = (browserFallback r, keys) := by
    unfold verify_api_key
    simp only [hres]
  refine ⟨?_, ?_, ?_⟩
  · rw [hmain]
    unfold browserFallback
    rfl
  · intro hacc
    rw [hmain]
    unfold browserFallback
    simp [hacc]
  · intro hacc hua
    have : verify_api_key users keys deser r now =
        (.unauthorized "Missing or invalid authentication", keys) := by
      rw [hmain]
      unfold browserFallback
      simp [hacc, hua]
    exact ⟨this, by rw [this]; rfl⟩

def rC6w : Request :=
  { x_forwarded_uri := some "/studio?x=1", x_forwarded_host := some "tts.local",
    authorization := none, x_api_key := none, vk_session := none,
    accept := "text/html,application/xhtml+xml", user_agent := "curl/8.0" }

/-- C6 witness: a concrete carrier-less request with an HTML Accept header
and forwarding context is redirected to the login page with the
percent-encoded original destination. -/
theorem C6_witness :
    (verify_api_key [] [] (fun _ => none) rC6w 0).1 =
      .redirect
        "https://auth.caronboulme.fr/auth/login?redirect=https%3A//tts.local/studio%3Fx%3D1" := by
  have h := C6_no_credential_fallback [] [] (fun _ => none) rC6w 0
    (by decide) (by decide) (by decide)
  exact (h.2.1 (by decide)).trans (by decide)

def kdC7 : APIKeyCreate :=
  { key_name := "zero-days", user := "alice", scopes := ["tts"],
    expires_in_days := some 0 }

def kC7 : APIKey :=
  { id := 1, key_name := "zero-days", api_key := "sek7", user_id := 0, user := "alice",
    scopes := "tts", is_active := true, created_at := 100, last_used := none,
    expires_at := none }

/-- C7: issuing a key with `expires_in_days = 0` stores NO expiration
(`if key_data.expires_in_days:` on main.py line 679 treats 0 as falsy, the
same as `None`), so a later verification ALLOWs instead of returning
DENY(expired) — the code contradicts the documented `expires_in_days=0`
semantics of an expiration in the past. -/
theorem C7_expires_in_days_zero_bug :
    create_api_key [] kdC7 "sek7" 1 100 =
      .ok ({ id := 1, key_name := "zero-days", api_key := "sek7", user := "alice",
             scopes := ["tts"], is_active := true, created_at := 100,
             last_used := none, expires_at := none }, [kC7]) ∧
    kC7.expires_at = none ∧
    (verifyKey [kC7] "sek7" "tts" "unknown" 1000000).1 = .allow "alice" "tts" "tts" := by
  decide

def kdC8 : APIKeyCreate :=
  { key_name := "empty-scopes", user := "u8", scopes := [], expires_in_days := none }

def kC8 : APIKey :=
  { id := 1, key_name := "empty-scopes", api_key := "sek8", user_id := 0, user := "u8",
    scopes := "", is_active := true, created_at := 0, last_used := none,
    expires_at := none }

/-- C8 counterexample: issuing a key with the empty scope list (whose
elements vacuously contain no comma) stores the scope string `""`, and the
listing endpoint returns the scope list `[""]`, not the issued `[]` —
`','.join([])` is `''` and `''.split(',')` is `['']`. -/
theorem C8_counterexample :
    (∀ s ∈ kdC8.scopes, ',' ∉ s.data) ∧
    create_api_key [] kdC8 "sek8" 1 0 =
      .ok ({ id := 1, key_name := "empty-scopes", api_key := "sek8", user := "u8",
             scopes := [], is_active := true, created_at := 0, last_used := none,
             expires_at := none }, [kC8]) ∧
    (list_api_keys [kC8]).map (·.scopes) = [[""]] ∧
    ([[""]] : List (List String)) ≠ [kdC8.scopes] := by
  decide

/-- C8 (amended): for a key issued with a fresh name, any user name, and a
non-empty scope list whose elements contain no comma and are unchanged by
whitespace stripping, the listing endpoint returns one new entry whose
name, user, scope list and active flag match what was issued, and the
plaintext secret (which, being freshly generated, differs from the issued
name, user and scopes) appears in none of the entry strings. -/
theorem C8_create_list_roundtrip (store : List APIKey) (kd : APIKeyCreate)
    (secret : String) (nid : Nat) (now : Int)
    (hname : store.find? (fun k => k.key_name == kd.key_name) = none)
    (hne : kd.scopes ≠ [])
    (hcomma : ∀ s ∈ kd.scopes, ',' ∉ s.data)
    (hstrip : ∀ s ∈ kd.scopes, pyStrip s = s)
    (hs1 : secret ≠ kd.key_name) (hs2 : secret ≠ kd.user) (hs3 : secret ∉ kd.scopes) :
    ∃ e : APIKeyListEntry,
      (∃ resp store2, create_api_key store kd secret nid now = .ok (resp, store2) ∧
        list_api_keys store2 = list_api_keys store ++ [e]) ∧
      e.key_name = kd.key_name ∧ e.user = kd.user ∧ e.scopes = kd.scopes ∧
      e.is_active = true ∧ secret ∉ e.strings := by
  have hcreate :
      create_api_key store kd secret nid now =
        .ok ({ id := nid, key_name := kd.key_name, api_key := secret,
               user := kd.user, scopes := kd.scopes, is_active := true,
               created_at := now, last_used := none,
               expires_at := expiresOf kd now },
          store ++ [{ id := nid, key_name := kd.key_name, api_key := secret,
                      user_id := 0, user := kd.user, scopes := pyJoinComma kd.scopes,
                      is_active := true, created_at := now, last_used := none,
                      expires_at := expiresOf kd now }]) := by
    unfold create_api_key
    rw [hname]
  refine ⟨{ id := nid, key_name := kd.key_name, user := kd.user, scopes := kd.scopes,
            is_active := true, created_at := now, last_used := none,
            expires_at := expiresOf kd now },
    ⟨_, _, hcreate, ?_⟩, rfl, rfl, rfl, rfl, ?_⟩
  · unfold list_api_keys
    rw [List.map_append]
    simp only [List.map_cons, List.map_nil]
    rw [scopes_roundtrip hne hcomma hstrip]
  · simp only [APIKeyListEntry.strings, List.mem_cons, not_or]
    exact ⟨hs1, hs2, fun hmem => hs3 hmem⟩

def kdC8w : APIKeyCreate :=
  { key_name := "studio", user := "erin", scopes := ["tts", "stt"],
    expires_in_days := none }

/-- C8 witness: a concrete issuance with scopes `tts, stt` and a fresh
secret round-trips through the listing endpoint. -/
theorem C8_witness :
    ∃ e : APIKeyListEntry,
      (∃ resp store2, create_api_key [] kdC8w "fresh-secret-S" 1 0 = .ok (resp, store2) ∧
        list_api_keys store2 = list_api_keys [] ++ [e]) ∧
      e.key_name = kdC8w.key_name ∧ e.user = kdC8w.user ∧ e.scopes = kdC8w.scopes ∧
      e.is_active = true ∧ "fresh-secret-S" ∉ e.strings := by
  exact C8_create_list_roundtrip [] kdC8w "fresh-secret-S" 1 0
    (by decide) (by decide) (by decide) (by decide) (by decide) (by decide) (by decide)

/-- When no Bearer header and no X-API-Key header are present but the
session cookie resolves to a non-zero user id with an active user row,
the resolver carries that user row's username and the session-selected
key (if any) as the candidate. -/
lemma resolveCandidate_session (users : List User) (keys : List APIKey)
    (deser : String → Option Nat) (r : Request) (service : String)
    (c : String) (uid : Nat) (u : User)
    (hauth : r.authorization = none) (hx : r.x_api_key = none)
    (hck : r.vk_session = some c) (hc : c ≠ "")
    (hdes : deser c = some uid) (huid : uid ≠ 0)
    (hu : users.find? (fun x => x.id == uid && x.is_active) = some u) :
    resolveCandidate users keys deser r service =
      match sessionSelectKey keys uid service with
      | some k => { api_key := some k.api_key, user_name := u.username }
      | none => { api_key := none, user_name := u.username } := by
  unfold resolveCandidate
  simp [hauth, hx, hck, truthyOpt, truthyStr, hc, hdes, huid, hu]

/-- C9: the preferred-identity override uses the literal string `unknown`
as its absence sentinel — when the session cookie resolves to an active
user whose username is exactly `unknown`, a successful verification
reports the credential's stored `user` field in the ALLOW payload, even
though the session-based resolution succeeded. -/
theorem C9_unknown_username_sentinel (users : List User) (keys : List APIKey)
    (deser : String → Option Nat) (r : Request) (now : Int)
    (c : String) (uid : Nat) (u : User) (k : APIKey)
    (hauth : r.authorization = none) (hx : r.x_api_key = none)
    (hck : r.vk_session = some c) (hc : c ≠ "")
    (hdes : deser c = some uid) (huid : uid ≠ 0)
    (hu : users.find? (fun x => x.id == uid && x.is_active) = some u)
    (hun : u.username = "unknown")
    (hsel : sessionSelectKey keys uid (serviceOf r) = some k)
    (hkne : k.api_key ≠ "")
    (hfind : keys.find? (fun x => x.api_key == k.api_key) = some k)
    (hact : k.is_active = true) (hexp : isExpired k now = false)
    (hscope : scopeOk k (serviceOf r) = true) :
    (verify_api_key users keys deser r now).1 =
      .allow k.user (serviceOf r) k.scopes := by
  have hres := resolveCandidate_session users keys deser r (serviceOf r) c uid u
    hauth hx hck hc hdes huid hu
  rw [hsel] at hres
  unfold verify_api_key
  simp only [hres]
  have hkeq : (k.api_key == "") = false := by
    simp [beq_eq_false_iff_ne, hkne]
  simp only [hkeq, Bool.false_eq_true, if_false]
  unfold verifyKey
  rw [hfind]
  simp [hact, hexp, hscope, hun]

def uC9 : User := { id := 1, username := "unknown", is_active := true }

def kC9 : APIKey :=
  { id := 9, key_name := "session-key", api_key := "sk9", user_id := 1, user := "bob",
    scopes := "*", is_active := true, created_at := 0, last_used := none,
    expires_at := none }

def rC9 : Request :=
  { x_forwarded_uri := none, x_forwarded_host := none,
    authorization := none, x_api_key := none, vk_session := some "ck",
    accept := "", user_agent := "" }

/-- C9 witness: a concrete session whose user is literally named
`unknown` verifies through the user's wildcard key, and the ALLOW payload
reports the key's stored `user` field `bob` instead of the session
username. -/
theorem C9_witness :
    (verify_api_key [uC9] [kC9] (fun s => if s == "ck" then some 1 else none) rC9 50).1 =
      .allow "bob" "unknown" "*" := by
  have h := C9_unknown_username_sentinel [uC9] [kC9]
    (fun s => if s == "ck" then some 1 else none) rC9 50 "ck" 1 uC9 kC9
    (by decide) (by decide) (by decide) (by decide) (by decide) (by decide)
    (by decide) (by decide) (by decide) (by decide) (by decide) (by decide)
    (by decide) (by decide)
  exact h.trans (by decide)

/-- C10: session-cookie key selection checks only the active flag and the
scope match, never expiration — with two active matching keys where the
newer one is expired and the older one is not, the expired newer key is
selected, the verification is denied as expired, and yet the older key
alone would have been allowed. -/
theorem C10_session_selection_ignores_expiration (users : List User)
    (deser : String → Option Nat) (r : Request) (now : Int)
    (c : String) (uid : Nat) (u : User) (k1 k2 : APIKey) (e1 : Int)
    (hauth : r.authorization = none) (hx : r.x_api_key = none)
    (hck : r.vk_session = some c) (hc : c ≠ "")
    (hdes : deser c = some uid) (huid : uid ≠ 0)
    (hu : users.find? (fun x => x.id == uid && x.is_active) = some u)
    (h1uid : k1.user_id = uid) (h2uid : k2.user_id = uid)
    (h1act : k1.is_active = true) (h2act : k2.is_active = true)
    (horder : k2.created_at ≤ k1.created_at)
    (h1scope : scopeOk k1 (serviceOf r) = true)
    (h2scope : scopeOk k2 (serviceOf r) = true)
    (h1exp : k1.expires_at = some e1) (he1 : e1 < now)
    (h2exp : isExpired k2 now = false)
    (h1ne : k1.api_key ≠ "") (hdiff : k1.api_key ≠ k2.api_key) :
    sessionSelectKey [k1, k2] uid (serviceOf r) = some k1 ∧
    (verify_api_key users [k1, k2] deser r now).1 = .forbidden "API key has expired" ∧
    (verifyKey [k1, k2] k2.api_key (serviceOf r) "unknown" now).1 =
      .allow k2.user (serviceOf r) k2.scopes := by
  have hsel : sessionSelectKey [k1, k2] uid (serviceOf r) = some k1 := by
    simp [sessionSelectKey, sortByCreatedDesc, insertDesc,
      h1uid, h2uid, h1act, h2act, horder, h1scope]
  have h1expired : isExpired k1 now = true := by
    unfold isExpired
    rw [h1exp]
    simpa using he1
  refine ⟨hsel, ?_, ?_⟩
  · have hres := resolveCandidate_session users [k1, k2] deser r (serviceOf r) c uid u
      hauth hx hck hc hdes huid hu
    rw [hsel] at hres
    unfold verify_api_key
    simp only [hres]
    have hkeq : (k1.api_key == "") = false := by
      simp [beq_eq_false_iff_ne, h1ne]
    simp only [hkeq, Bool.false_eq_true, if_false]
    unfold verifyKey
    simp [List.find?, h1act, h1expired]
  · unfold verifyKey
    have hk1 : (k1.api_key == k2.api_key) = false := by
      simp [beq_eq_false_iff_ne, hdiff]
    simp [List.find?, hk1, h2act, h2exp, h2scope]

def uC10 : User := { id := 1, username := "bob", is_active := true }

def k1C10 : APIKey :=
  { id := 11, key_name := "newer", api_key := "sk-new", user_id := 1, user := "bob",
    scopes := "tts", is_active := true, created_at := 10, last_used := none,
    expires_at := some 5 }

def k2C10 : APIKey :=
  { id := 12, key_name := "older", api_key := "sk-old", user_id := 1, user := "bob",
    scopes := "tts", is_active := true, created_at := 0, last_used := none,
    expires_at := none }

def rC10 : Request :=
  { x_forwarded_uri := none, x_forwarded_host := some "tts.example.com",
    authorization := none, x_api_key := none, vk_session := some "ck",
    accept := "", user_agent := "" }

/-- C10 witness: concretely, the newer-but-expired key `sk-new` is
selected over the older valid key `sk-old` and the request is denied as
expired, while `sk-old` alone would have been allowed. -/
theorem C10_witness :
    sessionSelectKey [k1C10, k2C10] 1 "tts" = some k1C10 ∧
    (verify_api_key [uC10] [k1C10, k2C10]
        (fun s => if s == "ck" then some 1 else none) rC10 100).1 =
      .forbidden "API key has expired" ∧
    (verifyKey [k1C10, k2C10] "sk-old" "tts" "unknown" 100).1 =
      .allow "bob" "tts" "tts" := by
  have h := C10_session_selection_ignores_expiration [uC10]
    (fun s => if s == "ck" then some 1 else none) rC10 100 "ck" 1 uC10 k1C10 k2C10 5
    (by decide) (by decide) (by decide) (by decide) (by decide) (by decide)
    (by decide) (by decide) (by decide) (by decide) (by decide) (by decide)
    (by decide) (by decide) (by decide) (by decide) (by decide) (by decide)
    (by decide)
  refine ⟨?_, ?_, ?_⟩
  · exact h.1.trans (by decide)
  · exact h.2.1.trans (by decide)
  · exact h.2.2.trans (by decide)

end VK
